import Mathlib

/-!
# Verification of the API-gateway request pipeline

Shallow embedding of `src/api-gateway/src/server.js`: an Express edge
reverse proxy with a Redis-backed rate limiter, per-route bearer-token
validation, path rewriting (`/v1` → `/api`) and per-route request/response
decorators.

Modelling notes:
* Inbound headers are association lists; the Node runtime lower-cases
  inbound header names, and `setHeader`/`getHeader` are case-insensitive
  on names, matching Node's treatment of outbound header objects.
* The bearer credential is carried as an already-extracted `Option Token`
  (`none` when the authorization header is absent or not in the bearer
  scheme); token verification itself lives in
  `src/api-gateway/src/middleware/authMiddleware.js`, which is not part
  of the sources, and is therefore modelled from the spec (see
  `validateToken`).
* The rate limiter is `express-rate-limit` configured in `server.js`
  with `windowMs = 15 * 60 * 1000`, `max = 100`, a Redis store and the
  library's default key generator (the caller's IP).  Within one window
  the store is an association list from key to hit count; the limiter
  atomically increments and denies when the new count exceeds `max`.
* Re-serialization of JSON-parsed bodies on `parseReqBody := true`
  routes is not modelled (no claim depends on it); the media route has
  `parseReqBody: false` in the source and streams the body unmodified.
-/

/-- Leaf JSON value appearing in the gateway's structured response bodies. -/
inductive JVal where
  | s (v : String)
  | b (v : Bool)
  deriving DecidableEq, Repr

/-- A flat JSON object body, fields in source order. -/
abbrev JBody := List (String × JVal)

/-- `server.js` rate-limit `handler` body: `{success: false, message: "Too many requests"}`. -/
def tooManyBody : JBody := [("success", JVal.b false), ("message", JVal.s "Too many requests")]

/-- `proxyErrorHandler` body: `{message: "Internal server error", error: err.message}`. -/
def internalErrorBody (err : String) : JBody :=
  [("message", JVal.s "Internal server error"), ("error", JVal.s err)]

/-- Body of a response emitted by the gateway. -/
inductive RespBody where
  | json (j : JBody)
  | relayed (data : List Nat)
  | text (t : String)
  deriving DecidableEq, Repr

/-- An HTTP response as seen by the original caller. -/
structure Response where
  status : Nat
  headers : List (String × String)
  body : RespBody
  deriving DecidableEq, Repr

/-- Bearer credential, already extracted from the authorization header.
Modelled from the spec: token contents (subject claim, expiry, signature
validity) as the Token Validator's verification contract sees them. -/
structure Token where
  subject : String
  expiresAt : Nat
  validSignature : Bool
  deriving DecidableEq, Repr

/-- Outcome of the Token Validator. -/
inductive AuthResult where
  | ok (userId : String)
  | malformed
  | invalid
  | expired
  deriving DecidableEq, Repr

/-- Modelled from the spec: `validateToken` from
`src/api-gateway/src/middleware/authMiddleware.js` (not among the sources).
"Extracts a bearer token from the request's authorization header; fails with
`malformed` if absent or not in the expected scheme. Verifies signature and
expiry ...; fails with `invalid` on signature mismatch, `expired` on a past
expiry claim. On success, returns a Client Identity (subject/user id)." -/
def validateToken (cred : Option Token) (now : Nat) : AuthResult :=
  match cred with
  | none => AuthResult.malformed
  | some t =>
    if !t.validSignature then AuthResult.invalid
    else if t.expiresAt ≤ now then AuthResult.expired
    else AuthResult.ok t.subject

/-- An inbound HTTP request at the gateway's public interface. -/
structure Request where
  method : String
  path : String
  query : String
  ip : String
  headers : List (String × String)
  credential : Option Token
  body : List Nat
  deriving DecidableEq, Repr

/-- Express `req.originalUrl`: path plus query string. -/
def Request.originalUrl (req : Request) : String := req.path ++ req.query

/-- ASCII lower-casing of one character (header names are ASCII). -/
def lowerChar (c : Char) : Char :=
  if 'A' ≤ c ∧ c ≤ 'Z' then Char.ofNat (c.toNat + 32) else c

/-- ASCII lower-casing of a header name. -/
def lowerName (s : String) : String := String.mk (s.data.map lowerChar)

/-- Case-insensitive header lookup (Node header names are case-insensitive). -/
def getHeader : List (String × String) → String → Option String
  | [], _ => none
  | (k, v) :: rest, name =>
    if lowerName k = lowerName name then some v else getHeader rest name

/-- Case-insensitive header assignment, keeping the position of an existing entry. -/
def setHeader : List (String × String) → String → String → List (String × String)
  | [], name, v => [(name, v)]
  | (k, w) :: rest, name, v =>
    if lowerName k = lowerName name then (name, v) :: rest
    else (k, w) :: setHeader rest name v

/-! ## Rate limiter (`rateLimitOptions` in `server.js`) -/

/-- `windowMs: 15 * 60 * 1000` in `rateLimitOptions`. -/
def windowMs : Nat := 15 * 60 * 1000

/-- `max: 100` in `rateLimitOptions`. -/
def maxRequests : Nat := 100

/-- Shared counter store: hit count per client key within the current window. -/
abbrev Store := List (String × Nat)

/-- Hit count recorded for a key (0 when the key has no entry yet). -/
def getCount : Store → String → Nat
  | [], _ => 0
  | (k, n) :: rest, key => if k = key then n else getCount rest key

/-- Atomic increment of a key's hit count, creating the entry on first use. -/
def incr : Store → String → Store
  | [], key => [(key, 1)]
  | (k, n) :: rest, key =>
    if k = key then (k, n + 1) :: rest else (k, n) :: incr rest key

/-- The limiter's partition key: `express-rate-limit`'s default key
generator, the caller's IP (`rateLimitOptions` sets no `keyGenerator`). -/
def rateLimitKey (req : Request) : String := req.ip

/-- Response produced by `rateLimitOptions.handler`:
`res.status(429).json({success: false, message: "Too many requests"})`. -/
def rateLimitHandlerResponse : Response :=
  { status := 429, headers := [], body := RespBody.json tooManyBody }

/-! ## Route table (`app.use` registrations in `server.js`) -/

/-- The five proxied route prefixes, in registration order. -/
inductive Route where
  | auth
  | posts
  | media
  | search
  | profile
  deriving DecidableEq, Repr

/-- Mount prefix of each route. -/
def routePrefix : Route → String
  | Route.auth => "/v1/auth"
  | Route.posts => "/v1/posts"
  | Route.media => "/v1/media"
  | Route.search => "/v1/search"
  | Route.profile => "/v1/profile"

/-- String prefix test over the underlying character lists. -/
def strIsPrefixOf (p s : String) : Bool := List.isPrefixOf p.data s.data

/-- Express mount-point matching: the path equals the prefix or continues it
at a `/` boundary. -/
def mountMatches (pfx path : String) : Bool :=
  path = pfx || strIsPrefixOf (pfx ++ "/") path

/-- Route resolution over the registered `app.use` mount points. -/
def matchRoute (path : String) : Option Route :=
  if mountMatches (routePrefix Route.auth) path then some Route.auth
  else if mountMatches (routePrefix Route.posts) path then some Route.posts
  else if mountMatches (routePrefix Route.media) path then some Route.media
  else if mountMatches (routePrefix Route.search) path then some Route.search
  else if mountMatches (routePrefix Route.profile) path then some Route.profile
  else none

/-- Every route except `/v1/auth` is registered with the `validateToken`
middleware in front of its proxy. -/
def requiresAuth : Route → Bool
  | Route.auth => false
  | _ => true

/-- `parseReqBody` flag per route: only the media proxy sets
`parseReqBody: false` in `server.js`. -/
def parseReqBody : Route → Bool
  | Route.media => false
  | _ => true

/-! ## Proxy options (`proxyOptions` and per-route decorators) -/

/-- `proxyReqPathResolver: (req) => req.originalUrl.replace(/^\/v1/, "/api")`.
The JS regex replaces the anchored prefix `/v1` when present and leaves the
string unchanged otherwise. -/
def proxyReqPathResolver (originalUrl : String) : String :=
  match originalUrl.data with
  | '/' :: 'v' :: '1' :: rest => String.mk ('/' :: 'a' :: 'p' :: 'i' :: rest)
  | _ => originalUrl

/-- Response produced by `proxyErrorHandler`:
`res.status(500).json({message: "Internal server error", error: err.message})`. -/
def proxyErrorHandlerResponse (err : String) : Response :=
  { status := 500, headers := [], body := RespBody.json (internalErrorBody err) }

/-- Message of the `TypeError` thrown by the media decorator when the inbound
request has no content-type header (`srcReq.headers['content-type']` is
`undefined` and `.startsWith` is read from it). -/
def missingContentTypeError : String :=
  "Cannot read properties of undefined (reading 'startsWith')"

/-- Message of the `TypeError` thrown when `srcReq.user` is `undefined`
and `.userId` is read from it. -/
def missingUserError : String :=
  "Cannot read properties of undefined (reading 'userId')"

/-- Per-route `proxyReqOptDecorator` acting on the outbound header object,
which `express-http-proxy` initializes from the inbound headers.
`uid` is `srcReq.user.userId` when `validateToken` has run (`none` otherwise).
`Except.error` models a thrown exception inside the decorator. -/
def proxyReqOptDecorator (r : Route) (req : Request) (uid : Option String) :
    Except String (List (String × String)) :=
  match r with
  | Route.auth =>
    Except.ok (setHeader req.headers "Content-Type" "application/json")
  | Route.media =>
    match uid with
    | none => Except.error missingUserError
    | some u =>
      let hs := setHeader req.headers "x-user-id" u
      match getHeader req.headers "content-type" with
      | none => Except.error missingContentTypeError
      | some ct =>
        Except.ok (if strIsPrefixOf "multipart/form-data" ct then hs
                   else setHeader hs "Content-Type" "application/json")
  | _ =>
    match uid with
    | none => Except.error missingUserError
    | some u =>
      Except.ok (setHeader (setHeader req.headers "Content-Type" "application/json")
        "x-user-id" u)

/-- Per-route `userResDecorator`: logs the backend status and returns
`proxyResData` unmodified. -/
def userResDecorator (_r : Route) (proxyResData : List Nat) : List Nat :=
  proxyResData

/-- The single outbound request the gateway builds for a forwarded exchange. -/
structure OutboundRequest where
  target : Route
  path : String
  headers : List (String × String)
  body : List Nat
  deriving DecidableEq, Repr

/-- Result of the one backend call: a response, or a transport-level failure. -/
inductive BackendResult where
  | response (status : Nat) (headers : List (String × String)) (data : List Nat)
  | transportError (msg : String)
  deriving DecidableEq, Repr

/-- Relay of the backend result to the original caller: status, headers and
body pass through (via `userResDecorator`); a transport failure is handled
by `proxyErrorHandler`. -/
def relayResponse (r : Route) : BackendResult → Response
  | BackendResult.response st hs d =>
    { status := st, headers := hs, body := RespBody.relayed (userResDecorator r d) }
  | BackendResult.transportError msg => proxyErrorHandlerResponse msg

/-! ## The request pipeline -/

/-- Modelled from the spec: the Error Boundary / `errorHandler` middleware
(`src/api-gateway/src/middleware/errorHandler.js` is not among the sources)
"emits a single uniform JSON error body with a generic internal server error
message plus the underlying error detail, at a 500-class status"; this is the
same shape `proxyErrorHandler` produces for errors inside the proxy workflow. -/
def errorBoundaryResponse (err : String) : Response :=
  proxyErrorHandlerResponse err

/-- Modelled from the spec: the rejection response of the `validateToken`
middleware, "auth failure → structured body indicating unauthorized"
(HTTP 401). -/
def unauthorizedResponse : Response :=
  { status := 401, headers := [],
    body := RespBody.json [("success", JVal.b false), ("message", JVal.s "Unauthorized")] }

/-- Express's default response when no mount point matches. -/
def notFoundResponse (req : Request) : Response :=
  { status := 404, headers := [],
    body := RespBody.text ("Cannot " ++ req.method ++ " " ++ req.path) }

/-- Everything one inbound request produces: the updated counter store, the
response sent to the caller, and the list of backend calls made. -/
structure GatewayResult where
  store : Store
  response : Response
  calls : List OutboundRequest
  deriving DecidableEq, Repr

/-- Proxy stage for a resolved route: run the request decorator (a thrown
exception reaches the error boundary and nothing is forwarded), build the
outbound request with the rewritten path, make the single backend call and
relay its result. -/
def forwardStage (s : Store) (req : Request) (r : Route) (uid : Option String)
    (backend : OutboundRequest → BackendResult) : GatewayResult :=
  match proxyReqOptDecorator r req uid with
  | Except.error msg => { store := s, response := errorBoundaryResponse msg, calls := [] }
  | Except.ok outHeaders =>
    let out : OutboundRequest :=
      { target := r
        path := proxyReqPathResolver req.originalUrl
        headers := outHeaders
        body := req.body }
    { store := s, response := relayResponse r (backend out), calls := [out] }

/-- The full middleware chain of `server.js` for one request: rate limiter
(increment, then deny when the new count exceeds `max`), route resolution,
`validateToken` on the routes that mount it, then the proxy stage. -/
def handle (s : Store) (now : Nat) (req : Request)
    (backend : OutboundRequest → BackendResult) : GatewayResult :=
  let key := rateLimitKey req
  let s' := incr s key
  if maxRequests < getCount s' key then
    { store := s', response := rateLimitHandlerResponse, calls := [] }
  else
    match matchRoute req.path with
    | none => { store := s', response := notFoundResponse req, calls := [] }
    | some r =>
      if requiresAuth r then
        match validateToken req.credential now with
        | AuthResult.ok uid => forwardStage s' req r (some uid) backend
        | _ => { store := s', response := unauthorizedResponse, calls := [] }
      else
        forwardStage s' req r none backend

/-- `n` consecutive requests: the store after replaying `req` n times. -/
def runN (now : Nat) (req : Request) (backend : OutboundRequest → BackendResult)
    (s : Store) : Nat → Store
  | 0 => s
  | n + 1 => (handle (runN now req backend s n) now req backend).store

/-! ## Store and pipeline lemmas -/

theorem getCount_incr_self (s : Store) (k : String) :
    getCount (incr s k) k = getCount s k + 1 := by
  induction s with
  | nil => simp [incr, getCount]
  | cons p rest ih =>
    obtain ⟨k', n⟩ := p
    by_cases h : k' = k
    · simp [incr, getCount, h]
    · simp [incr, getCount, h, ih]

theorem relayResponse_ne_denial (r : Route) (br : BackendResult) :
    relayResponse r br ≠ rateLimitHandlerResponse := by
  cases br <;>
    simp [relayResponse, rateLimitHandlerResponse, proxyErrorHandlerResponse,
      userResDecorator, tooManyBody, internalErrorBody]

theorem handle_store (s : Store) (now : Nat) (req : Request)
    (b : OutboundRequest → BackendResult) :
    (handle s now req b).store = incr s (rateLimitKey req) := by
  simp only [handle, forwardStage]
  repeat' split
  all_goals rfl

theorem handle_denied (s : Store) (now : Nat) (req : Request)
    (b : OutboundRequest → BackendResult)
    (h : maxRequests ≤ getCount s (rateLimitKey req)) :
    handle s now req b =
      { store := incr s (rateLimitKey req), response := rateLimitHandlerResponse,
        calls := [] } := by
  have hc : maxRequests < getCount (incr s (rateLimitKey req)) (rateLimitKey req) := by
    rw [getCount_incr_self]; omega
  simp only [handle, if_pos hc]

theorem admitted_not_denial (s : Store) (now : Nat) (req : Request)
    (b : OutboundRequest → BackendResult)
    (h : getCount s (rateLimitKey req) < maxRequests) :
    (handle s now req b).response ≠ rateLimitHandlerResponse := by
  have hc : ¬ maxRequests < getCount (incr s (rateLimitKey req)) (rateLimitKey req) := by
    rw [getCount_incr_self]; omega
  simp only [handle, forwardStage, if_neg hc]
  repeat' split
  all_goals
    first
    | exact relayResponse_ne_denial _ _
    | simp [rateLimitHandlerResponse, notFoundResponse, unauthorizedResponse,
        errorBoundaryResponse, proxyErrorHandlerResponse, tooManyBody]

theorem getHeader_setHeader_same (hs : List (String × String)) (k k' v : String)
    (h : lowerName k = lowerName k') :
    getHeader (setHeader hs k v) k' = some v := by
  induction hs with
  | nil => simp [setHeader, getHeader, h]
  | cons p rest ih =>
    obtain ⟨n, w⟩ := p
    by_cases hn : lowerName n = lowerName k
    · simp [setHeader, hn, getHeader, h]
    · simp only [setHeader, hn, if_false]
      have hn' : ¬ lowerName n = lowerName k' := by rw [← h]; exact hn
      simp [getHeader, hn', ih]

theorem getHeader_setHeader_ne (hs : List (String × String)) (k k' v : String)
    (h : ¬ lowerName k = lowerName k') :
    getHeader (setHeader hs k v) k' = getHeader hs k' := by
  induction hs with
  | nil => simp [setHeader, getHeader, h]
  | cons p rest ih =>
    obtain ⟨n, w⟩ := p
    by_cases hn : lowerName n = lowerName k
    · have hn' : ¬ lowerName n = lowerName k' := by rw [hn]; exact h
      simp [setHeader, hn, getHeader, h, hn']
    · simp only [setHeader, hn, if_false]
      by_cases hk' : lowerName n = lowerName k'
      · simp [getHeader, hk']
      · simp [getHeader, hk', ih]

theorem handle_calls_cases (s : Store) (now : Nat) (req : Request)
    (b : OutboundRequest → BackendResult) :
    (handle s now req b).calls = []
    ∨ ∃ out, (handle s now req b).calls = [out]
        ∧ (handle s now req b).response = relayResponse out.target (b out)
        ∧ out.path = proxyReqPathResolver req.originalUrl
        ∧ out.body = req.body := by
  simp only [handle, forwardStage]
  repeat' split
  all_goals
    first
    | (left; rfl)
    | (right; exact ⟨_, rfl, rfl, rfl, rfl⟩)

theorem runN_count (now : Nat) (req : Request) (b : OutboundRequest → BackendResult)
    (s : Store) (n : Nat) :
    getCount (runN now req b s n) (rateLimitKey req)
      = getCount s (rateLimitKey req) + n := by
  induction n with
  | zero => rfl
  | succ n ih =>
    show getCount (handle (runN now req b s n) now req b).store (rateLimitKey req) = _
    rw [handle_store, getCount_incr_self, ih]
    omega

theorem handle_denial_iff (s : Store) (now : Nat) (req : Request)
    (b : OutboundRequest → BackendResult) :
    (handle s now req b).response = rateLimitHandlerResponse
      ↔ maxRequests ≤ getCount s (rateLimitKey req) := by
  constructor
  · intro h
    by_contra hlt
    exact admitted_not_denial s now req b (Nat.lt_of_not_le hlt) h
  · intro h
    rw [handle_denied s now req b h]

/-! ## Concrete sample inputs used by the witnesses -/

def sampleToken : Token :=
  { subject := "user-1", expiresAt := 1000, validSignature := true }

def sampleAuthReq : Request :=
  { method := "POST", path := "/v1/auth/login", query := "", ip := "1.2.3.4",
    headers := [("content-type", "application/json")], credential := none,
    body := [123] }

def samplePostsReq : Request :=
  { method := "GET", path := "/v1/posts/42", query := "?x=1", ip := "1.2.3.4",
    headers := [("content-type", "application/json")],
    credential := some sampleToken, body := [] }

def sampleMediaReq : Request :=
  { method := "POST", path := "/v1/media/upload", query := "", ip := "5.6.7.8",
    headers := [("content-type", "multipart/form-data; boundary=xyz")],
    credential := some sampleToken, body := [1, 2, 3] }

def sampleMediaNoCTReq : Request :=
  { sampleMediaReq with headers := [("accept", "*/*")] }

def okBackend : OutboundRequest → BackendResult :=
  fun _ => BackendResult.response 404 [("x-backend", "1")] [9, 9]

def errBackend : OutboundRequest → BackendResult :=
  fun _ => BackendResult.transportError "connect ECONNREFUSED"

def fullStore : Store := [("1.2.3.4", 100)]

/-! ## Claims -/

/-- C1: for every client identity, each of the first 100 requests within one
15-minute window is admitted by the rate limiter (the response is not the
rate-limit denial), and the 101st request within the same window is denied. -/
theorem rateLimiter_first100_admitted_101st_denied
    (req : Request) (b : OutboundRequest → BackendResult) (now : Nat) (s₀ : Store)
    (h0 : getCount s₀ (rateLimitKey req) = 0) :
    (∀ i : Nat, i < 100 →
        (handle (runN now req b s₀ i) now req b).response ≠ rateLimitHandlerResponse)
    ∧ (handle (runN now req b s₀ 100) now req b).response = rateLimitHandlerResponse := by
  constructor
  · intro i hi
    apply admitted_not_denial
    rw [runN_count, h0]
    simpa [maxRequests] using hi
  · apply (handle_denial_iff _ _ _ _).mpr
    rw [runN_count, h0]
    simp [maxRequests]

/-- C1 witness: a concrete client replaying the same request against a fresh
store is admitted 100 times and denied on the 101st request. -/
theorem rateLimiter_first100_witness :
    (∀ i : Nat, i < 100 →
        (handle (runN 0 sampleAuthReq okBackend [] i) 0 sampleAuthReq okBackend).response
          ≠ rateLimitHandlerResponse)
    ∧ (handle (runN 0 sampleAuthReq okBackend [] 100) 0 sampleAuthReq okBackend).response
        = rateLimitHandlerResponse :=
  rateLimiter_first100_admitted_101st_denied sampleAuthReq okBackend 0 [] rfl

/-- C2: whenever the rate limiter denies a request, the gateway responds with
status 429 and exactly the body `{success: false, message: "Too many requests"}`,
and no backend call is made for that request. -/
theorem rateLimit_denial_429_exact_body_no_backend_call
    (s : Store) (now : Nat) (req : Request) (b : OutboundRequest → BackendResult)
    (h : maxRequests ≤ getCount s (rateLimitKey req)) :
    (handle s now req b).response.status = 429
    ∧ (handle s now req b).response.body
        = RespBody.json [("success", JVal.b false), ("message", JVal.s "Too many requests")]
    ∧ (handle s now req b).calls = [] := by
  rw [handle_denied s now req b h]
  exact ⟨rfl, rfl, rfl⟩

/-- C2 witness: a request whose client already used its full quota gets the
429 denial body and triggers no backend call. -/
theorem rateLimit_denial_witness :
    (handle fullStore 0 samplePostsReq okBackend).response.status = 429
    ∧ (handle fullStore 0 samplePostsReq okBackend).response.body
        = RespBody.json [("success", JVal.b false), ("message", JVal.s "Too many requests")]
    ∧ (handle fullStore 0 samplePostsReq okBackend).calls = [] :=
  rateLimit_denial_429_exact_body_no_backend_call fullStore 0 samplePostsReq okBackend
    (by decide)

/-- C3: every forwarded request's outbound path is the inbound
`originalUrl` with the leading `/v1` replaced by `/api`, the rest (path and
query string) preserved verbatim; in particular `/v1/posts/42?x=1` rewrites
to `/api/posts/42?x=1`. -/
theorem forwarded_path_rewrites_v1_to_api
    (s : Store) (now : Nat) (req : Request) (b : OutboundRequest → BackendResult)
    (out : OutboundRequest) (hout : out ∈ (handle s now req b).calls) :
    out.path = proxyReqPathResolver req.originalUrl
    ∧ (∀ rest : String, proxyReqPathResolver ("/v1" ++ rest) = "/api" ++ rest)
    ∧ proxyReqPathResolver "/v1/posts/42?x=1" = "/api/posts/42?x=1" := by
  refine ⟨?_, ?_, rfl⟩
  · rcases handle_calls_cases s now req b with hc | ⟨o, hc, _, hp, _⟩
    · rw [hc] at hout
      cases hout
    · rw [hc] at hout
      rw [List.mem_singleton] at hout
      rw [hout]
      exact hp
  · intro rest
    cases rest with
    | mk l => rfl

/-- C3 witness: the concrete forwarded authentication request carries the
rewritten path. -/
theorem forwarded_path_rewrite_witness :
    ({ target := Route.auth, path := "/api/auth/login",
       headers := [("Content-Type", "application/json")],
       body := [123] } : OutboundRequest).path
      = proxyReqPathResolver sampleAuthReq.originalUrl
    ∧ (∀ rest : String, proxyReqPathResolver ("/v1" ++ rest) = "/api" ++ rest)
    ∧ proxyReqPathResolver "/v1/posts/42?x=1" = "/api/posts/42?x=1" :=
  forwarded_path_rewrites_v1_to_api [] 0 sampleAuthReq okBackend _ (by decide)

def samplePostsNoCredReq : Request := { samplePostsReq with credential := none }

/-- C4: every route prefix except `/v1/auth` mounts `validateToken`: a request
without a valid credential to an authenticated route yields no backend call
and the unauthorized rejection, while on `/v1/auth` the pipeline's result does
not depend on the credential at all. -/
theorem auth_required_on_all_but_auth_route
    (s : Store) (now : Nat) (req : Request) (b : OutboundRequest → BackendResult) :
    (∀ r, matchRoute req.path = some r → r ≠ Route.auth →
        (∀ uid, validateToken req.credential now ≠ AuthResult.ok uid) →
        getCount s (rateLimitKey req) < maxRequests →
        (handle s now req b).calls = []
          ∧ (handle s now req b).response = unauthorizedResponse)
    ∧ (matchRoute req.path = some Route.auth →
        ∀ c, handle s now req b = handle s now { req with credential := c } b) := by
  constructor
  · intro r hm hr hv hadm
    have hc : ¬ maxRequests < getCount (incr s (rateLimitKey req)) (rateLimitKey req) := by
      rw [getCount_incr_self]; omega
    have hra : requiresAuth r = true := by
      cases r
      · exact absurd rfl hr
      all_goals rfl
    have hres : handle s now req b =
        { store := incr s (rateLimitKey req), response := unauthorizedResponse,
          calls := [] } := by
      cases hval : validateToken req.credential now with
      | ok uid => exact absurd hval (hv uid)
      | malformed => simp [handle, if_neg hc, hm, hra, hval]
      | invalid => simp [handle, if_neg hc, hm, hra, hval]
      | expired => simp [handle, if_neg hc, hm, hra, hval]
    rw [hres]
    exact ⟨rfl, rfl⟩
  · intro hm c
    obtain ⟨m, p, q, ip, hs, cred, body⟩ := req
    dsimp only at hm
    simp [handle, forwardStage, proxyReqOptDecorator, Request.originalUrl,
      rateLimitKey, hm, requiresAuth]

/-- C4 witness: a credential-less request to `/v1/posts` is rejected with no
backend call, and on `/v1/auth` attaching a credential changes nothing. -/
theorem auth_required_witness :
    ((handle [] 0 samplePostsNoCredReq okBackend).calls = []
      ∧ (handle [] 0 samplePostsNoCredReq okBackend).response = unauthorizedResponse)
    ∧ handle [] 0 sampleAuthReq okBackend
        = handle [] 0 { sampleAuthReq with credential := some sampleToken } okBackend :=
  ⟨(auth_required_on_all_but_auth_route [] 0 samplePostsNoCredReq okBackend).1
      Route.posts (by decide) (by decide)
      (fun uid h => by simp [validateToken, samplePostsNoCredReq, samplePostsReq] at h)
      (by decide),
    (auth_required_on_all_but_auth_route [] 0 sampleAuthReq okBackend).2 (by decide)
      (some sampleToken)⟩

/-- C5: a request with a valid, unexpired credential to an authenticated route
is forwarded with an `x-user-id` header equal to the credential's subject
claim. -/
theorem authed_forward_carries_subject_header
    (s : Store) (now : Nat) (req : Request) (b : OutboundRequest → BackendResult)
    (t : Token) (r : Route)
    (hcred : req.credential = some t) (hsig : t.validSignature = true)
    (hexp : now < t.expiresAt)
    (hm : matchRoute req.path = some r) (hr : r ≠ Route.auth)
    (out : OutboundRequest) (hout : out ∈ (handle s now req b).calls) :
    getHeader out.headers "x-user-id" = some t.subject := by
  have hval : validateToken req.credential now = AuthResult.ok t.subject := by
    rw [hcred]
    simp [validateToken, hsig, Nat.not_le.mpr hexp]
  by_cases hadm : maxRequests < getCount (incr s (rateLimitKey req)) (rateLimitKey req)
  · rw [handle_denied s now req b (by rw [getCount_incr_self] at hadm; omega)] at hout
    cases hout
  · cases r with
    | auth => exact absurd rfl hr
    | media =>
      cases hct : getHeader req.headers "content-type" with
      | none =>
        simp [handle, forwardStage, proxyReqOptDecorator, if_neg hadm, hm, hval,
          requiresAuth, hct] at hout
      | some ct =>
        by_cases hmp : strIsPrefixOf "multipart/form-data" ct = true
        · simp [handle, forwardStage, proxyReqOptDecorator, if_neg hadm, hm, hval,
            requiresAuth, hct, hmp] at hout
          rw [hout]
          exact getHeader_setHeader_same _ _ _ _ rfl
        · simp [handle, forwardStage, proxyReqOptDecorator, if_neg hadm, hm, hval,
            requiresAuth, hct, hmp] at hout
          rw [hout, getHeader_setHeader_ne _ _ _ _ (by decide)]
          exact getHeader_setHeader_same _ _ _ _ rfl
    | posts =>
      simp [handle, forwardStage, proxyReqOptDecorator, if_neg hadm, hm, hval,
        requiresAuth] at hout
      rw [hout]
      exact getHeader_setHeader_same _ _ _ _ rfl
    | search =>
      simp [handle, forwardStage, proxyReqOptDecorator, if_neg hadm, hm, hval,
        requiresAuth] at hout
      rw [hout]
      exact getHeader_setHeader_same _ _ _ _ rfl
    | profile =>
      simp [handle, forwardStage, proxyReqOptDecorator, if_neg hadm, hm, hval,
        requiresAuth] at hout
      rw [hout]
      exact getHeader_setHeader_same _ _ _ _ rfl

/-- C5 witness: the forwarded media upload of a validly authenticated caller
carries `x-user-id: user-1`, the sample credential's subject. -/
theorem authed_forward_subject_witness :
    getHeader
      ({ target := Route.media, path := "/api/media/upload",
         headers := [("content-type", "multipart/form-data; boundary=xyz"),
                      ("x-user-id", "user-1")],
         body := [1, 2, 3] } : OutboundRequest).headers "x-user-id"
      = some sampleToken.subject :=
  authed_forward_carries_subject_header [] 0 sampleMediaReq okBackend sampleToken
    Route.media rfl rfl (by decide) (by decide) (by decide) _ (by decide)

/-- C6: on the media route a multipart request is forwarded with its body
byte-identical and its original content-type kept (body parsing is disabled
for the route), while a non-multipart request gets its outbound content-type
forced to `application/json`. -/
theorem media_multipart_passthrough_else_json
    (s : Store) (now : Nat) (req : Request) (b : OutboundRequest → BackendResult)
    (t : Token)
    (hcred : req.credential = some t) (hsig : t.validSignature = true)
    (hexp : now < t.expiresAt)
    (hm : matchRoute req.path = some Route.media)
    (ct : String) (hct : getHeader req.headers "content-type" = some ct)
    (out : OutboundRequest) (hout : out ∈ (handle s now req b).calls) :
    parseReqBody Route.media = false
    ∧ out.body = req.body
    ∧ (strIsPrefixOf "multipart/form-data" ct = true →
        getHeader out.headers "content-type" = some ct)
    ∧ (strIsPrefixOf "multipart/form-data" ct = false →
        getHeader out.headers "content-type" = some "application/json") := by
  have hval : validateToken req.credential now = AuthResult.ok t.subject := by
    rw [hcred]
    simp [validateToken, hsig, Nat.not_le.mpr hexp]
  by_cases hadm : maxRequests < getCount (incr s (rateLimitKey req)) (rateLimitKey req)
  · rw [handle_denied s now req b (by rw [getCount_incr_self] at hadm; omega)] at hout
    cases hout
  · by_cases hmp : strIsPrefixOf "multipart/form-data" ct = true
    · simp [handle, forwardStage, proxyReqOptDecorator, if_neg hadm, hm, hval,
        requiresAuth, hct, hmp] at hout
      refine ⟨rfl, by rw [hout], ?_, ?_⟩
      · intro _
        rw [hout]
        show getHeader (setHeader req.headers "x-user-id" t.subject) "content-type"
          = some ct
        rw [getHeader_setHeader_ne _ _ _ _ (by decide)]
        exact hct
      · intro hmp'
        rw [hmp] at hmp'
        cases hmp'
    · simp [handle, forwardStage, proxyReqOptDecorator, if_neg hadm, hm, hval,
        requiresAuth, hct, hmp] at hout
      refine ⟨rfl, by rw [hout], ?_, ?_⟩
      · intro hmp'
        exact absurd hmp' hmp
      · intro _
        rw [hout]
        exact getHeader_setHeader_same _ _ _ _ (by decide)

/-- C6 witness: the concrete multipart upload is forwarded byte-identical with
its original content-type kept. -/
theorem media_content_type_witness :
    parseReqBody Route.media = false
    ∧ ({ target := Route.media, path := "/api/media/upload",
         headers := [("content-type", "multipart/form-data; boundary=xyz"),
                      ("x-user-id", "user-1")],
         body := [1, 2, 3] } : OutboundRequest).body = sampleMediaReq.body
    ∧ (strIsPrefixOf "multipart/form-data" "multipart/form-data; boundary=xyz" = true →
        getHeader
          ({ target := Route.media, path := "/api/media/upload",
             headers := [("content-type", "multipart/form-data; boundary=xyz"),
                          ("x-user-id", "user-1")],
             body := [1, 2, 3] } : OutboundRequest).headers "content-type"
          = some "multipart/form-data; boundary=xyz")
    ∧ (strIsPrefixOf "multipart/form-data" "multipart/form-data; boundary=xyz" = false →
        getHeader
          ({ target := Route.media, path := "/api/media/upload",
             headers := [("content-type", "multipart/form-data; boundary=xyz"),
                          ("x-user-id", "user-1")],
             body := [1, 2, 3] } : OutboundRequest).headers "content-type"
          = some "application/json") :=
  media_multipart_passthrough_else_json [] 0 sampleMediaReq okBackend sampleToken
    rfl rfl (by decide) (by decide) "multipart/form-data; boundary=xyz" (by decide)
    _ (by decide)

/-- C7: when the single backend call fails at the transport level, the gateway
emits one response, with status 500 and the body
`{message: "Internal server error", error: <message>}`, from exactly one
backend attempt (no retry). -/
theorem backend_transport_error_single_500_no_retry
    (s : Store) (now : Nat) (req : Request) (b : OutboundRequest → BackendResult)
    (msg : String) (hb : ∀ o, b o = BackendResult.transportError msg)
    (hne : (handle s now req b).calls ≠ []) :
    (handle s now req b).response = proxyErrorHandlerResponse msg
    ∧ (handle s now req b).response.status = 500
    ∧ (handle s now req b).response.body
        = RespBody.json
            [("message", JVal.s "Internal server error"), ("error", JVal.s msg)]
    ∧ (handle s now req b).calls.length = 1 := by
  rcases handle_calls_cases s now req b with h | ⟨o, hcalls, hresp, _, _⟩
  · exact absurd h hne
  · have h1 : (handle s now req b).response = proxyErrorHandlerResponse msg := by
      rw [hresp, hb o]
      rfl
    exact ⟨h1, by rw [h1]; rfl, by rw [h1]; rfl, by rw [hcalls]; rfl⟩

/-- C7 witness: an unreachable posts backend produces the single structured
500 response from one outbound attempt. -/
theorem backend_transport_error_witness :
    (handle [] 0 samplePostsReq errBackend).response
        = proxyErrorHandlerResponse "connect ECONNREFUSED"
    ∧ (handle [] 0 samplePostsReq errBackend).response.status = 500
    ∧ (handle [] 0 samplePostsReq errBackend).response.body
        = RespBody.json
            [("message", JVal.s "Internal server error"),
              ("error", JVal.s "connect ECONNREFUSED")]
    ∧ (handle [] 0 samplePostsReq errBackend).calls.length = 1 :=
  backend_transport_error_single_500_no_retry [] 0 samplePostsReq errBackend
    "connect ECONNREFUSED" (fun _ => rfl) (by decide)

/-- C8: every backend response, non-2xx included, is relayed to the caller
with status, headers and body unchanged; the per-route response hook returns
the response data unmodified. -/
theorem backend_response_relayed_unchanged
    (s : Store) (now : Nat) (req : Request) (b : OutboundRequest → BackendResult)
    (st : Nat) (hs : List (String × String)) (d : List Nat)
    (hb : ∀ o, b o = BackendResult.response st hs d)
    (hne : (handle s now req b).calls ≠ []) :
    (handle s now req b).response
        = { status := st, headers := hs, body := RespBody.relayed d }
    ∧ ∀ r x, userResDecorator r x = x := by
  rcases handle_calls_cases s now req b with h | ⟨o, hcalls, hresp, _, _⟩
  · exact absurd h hne
  · exact ⟨by rw [hresp, hb o]; rfl, fun r x => rfl⟩

/-- C8 witness: a backend 404 is relayed as-is (status, headers and body
unchanged). -/
theorem backend_response_relayed_witness :
    (handle [] 0 samplePostsReq okBackend).response
        = { status := 404, headers := [("x-backend", "1")],
            body := RespBody.relayed [9, 9] }
    ∧ ∀ r x, userResDecorator r x = x :=
  backend_response_relayed_unchanged [] 0 samplePostsReq okBackend
    404 [("x-backend", "1")] [9, 9] (fun _ => rfl) (by decide)

/-- C9: the rate-limit partition key is the caller's network address (the
limiter's default key generator), never the authenticated user id; the
admission decision for a request therefore depends only on the shared store
and the IP, not on any credential it carries. -/
theorem rate_limit_key_is_ip_credential_independent
    (s : Store) (now now' : Nat) (req req' : Request)
    (b b' : OutboundRequest → BackendResult) (hip : req.ip = req'.ip) :
    rateLimitKey req = req.ip
    ∧ ((handle s now req b).response = rateLimitHandlerResponse
        ↔ (handle s now' req' b').response = rateLimitHandlerResponse) := by
  refine ⟨rfl, ?_⟩
  rw [handle_denial_iff, handle_denial_iff, rateLimitKey, rateLimitKey, hip]

/-- C9 witness: a credentialed and an uncredentialed request from the same IP
get the same admission decision against the same store. -/
theorem rate_limit_key_witness :
    rateLimitKey samplePostsReq = samplePostsReq.ip
    ∧ ((handle fullStore 0 samplePostsReq okBackend).response = rateLimitHandlerResponse
        ↔ (handle fullStore 7 samplePostsNoCredReq errBackend).response
            = rateLimitHandlerResponse) :=
  rate_limit_key_is_ip_credential_independent fullStore 0 7 samplePostsReq
    samplePostsNoCredReq okBackend errBackend rfl

/-- C10: a validly authenticated media request with no content-type header
makes the media request decorator raise (it reads `.startsWith` off an
absent header); nothing is forwarded and the error boundary produces the
500-class structured body instead. -/
theorem media_missing_content_type_throws_not_forwarded
    (s : Store) (now : Nat) (req : Request) (b : OutboundRequest → BackendResult)
    (t : Token)
    (hm : matchRoute req.path = some Route.media)
    (hadm : getCount s (rateLimitKey req) < maxRequests)
    (hcred : req.credential = some t) (hsig : t.validSignature = true)
    (hexp : now < t.expiresAt)
    (hct : getHeader req.headers "content-type" = none) :
    (handle s now req b).calls = []
    ∧ (handle s now req b).response = errorBoundaryResponse missingContentTypeError := by
  have hval : validateToken req.credential now = AuthResult.ok t.subject := by
    rw [hcred]
    simp [validateToken, hsig, Nat.not_le.mpr hexp]
  have hc : ¬ maxRequests < getCount (incr s (rateLimitKey req)) (rateLimitKey req) := by
    rw [getCount_incr_self]; omega
  have hres : handle s now req b =
      { store := incr s (rateLimitKey req),
        response := errorBoundaryResponse missingContentTypeError, calls := [] } := by
    simp [handle, forwardStage, proxyReqOptDecorator, if_neg hc, hm, hval,
      requiresAuth, hct]
  rw [hres]
  exact ⟨rfl, rfl⟩

/-- C10 witness: the concrete authenticated media request without a
content-type header is not forwarded and yields the error-boundary response. -/
theorem media_missing_content_type_witness :
    (handle [] 0 sampleMediaNoCTReq okBackend).calls = []
    ∧ (handle [] 0 sampleMediaNoCTReq okBackend).response
        = errorBoundaryResponse missingContentTypeError :=
  media_missing_content_type_throws_not_forwarded [] 0 sampleMediaNoCTReq okBackend
    sampleToken (by decide) (by decide) rfl rfl (by decide) (by decide)
